import Mathlib

/-!
Shallow embedding of `src/script.js` (MukkamTravels): a client-side page
enhancer with a language switcher (`data-en` / `data-ml`), a dark/light
theme switcher, an accordion controller, a scroll revealer built on
IntersectionObserver, and a responsive nav toggle.  Browser-local storage
is modelled as an association list; DOM fragments are modelled by the
fields the script reads and writes.
-/

namespace MukkamTravels

/-- Storage key for the persisted language preference (`LS_LANG`). -/
def LS_LANG : String := "site-lang"

/-- Storage key for the persisted theme preference (`LS_THEME`). -/
def LS_THEME : String := "site-theme"

/-- The browser-local key-value store (`localStorage`), as an association
list; `setItem` prepends and drops older bindings of the same key. -/
abbrev Storage := List (String × String)

/-- Model of `localStorage.setItem(k, v)`. -/
def Storage.setItem (s : Storage) (k v : String) : Storage :=
  (k, v) :: s.filter (fun q => !(q.1 == k))

/-- Model of `localStorage.getItem(k)`: `none` plays the role of `null`. -/
def Storage.getItem (s : Storage) (k : String) : Option String :=
  (s.find? (fun q => q.1 == k)).map (fun q => q.2)

/-- A DOM element as seen by the language system: its `data-en` and
`data-ml` attributes (absent attributes are `none`) and its visible
`textContent`. -/
structure LangElem where
  dataEn : Option String
  dataMl : Option String
  textContent : String
  deriving Repr, DecidableEq

/-- Default element used for out-of-range `getD` indexing. -/
def dummyElem : LangElem := { dataEn := none, dataMl := none, textContent := "" }

/-- Per-element effect of `applyLanguage` (script.js lines 38-43): the
`querySelectorAll` with selector `[data-en]` visits only elements whose
`data-en` attribute is present, so an element without `data-en` is left
untouched; for a visited element, `textContent` becomes `data-ml` when
`lang === 'ml'` and `data-ml` is non-null, else `data-en` (non-null by
selection). -/
def applyLanguageElem (lang : String) (el : LangElem) : LangElem :=
  match el.dataEn with
  | none => el
  | some en =>
    match el.dataMl with
    | some ml =>
        if lang = "ml" then { el with textContent := ml }
        else { el with textContent := en }
    | none => { el with textContent := en }

/-- Inline SVG used for the theme toggle while light mode is active. -/
def MOON_SVG : String := "<svg viewBox=\"0 0 24 24\" width=\"18\" height=\"18\" xmlns=\"http://www.w3.org/2000/svg\" aria-hidden=\"true\"><path fill=\"currentColor\" d=\"M21 12.79A9 9 0 1111.21 3 7 7 0 0021 12.79z\"/></svg>"

/-- Inline SVG used for the theme toggle while dark mode is active. -/
def SUN_SVG : String := "<svg viewBox=\"0 0 24 24\" width=\"18\" height=\"18\" xmlns=\"http://www.w3.org/2000/svg\" aria-hidden=\"true\"><path fill=\"currentColor\" d=\"M6.76 4.84l-1.8-1.79L3.17 4.85l1.79 1.79L6.76 4.84zM1 13h3v-2H1v2zm10 9h2v-3h-2v3zm7.04-17.04l1.79-1.79-1.79-1.79-1.79 1.79 1.79 1.79zM17 13h3v-2h-3v2zM6.76 19.16l-1.79 1.79 1.79 1.79 1.79-1.79-1.79-1.79zM12 6a6 6 0 100 12 6 6 0 000-12z\"/></svg>"

/-- The page state touched by the language and theme systems: the
translatable elements, the `#lang-toggle` button labels, the document
root's `data-theme` attribute, the `#theme-toggle` buttons' `innerHTML`,
and the persisted store. -/
structure PageState where
  elems : List LangElem
  langLabels : List String
  docTheme : Option String
  themeIcons : List String
  storage : Storage
  deriving Repr, DecidableEq

/-- Model of `applyLanguage(lang)` (script.js lines 36-52): rewrites every
element selected by `[data-en]`, sets every language-toggle label to
`'ML'` or `'EN'`, and persists `lang` under `LS_LANG`. -/
def applyLanguage (lang : String) (st : PageState) : PageState :=
  { st with
    elems := st.elems.map (applyLanguageElem lang)
    langLabels := st.langLabels.map (fun _ => if lang = "ml" then "ML" else "EN")
    storage := Storage.setItem st.storage LS_LANG lang }

/-- Model of `applyTheme(theme)` (script.js lines 65-74): sets the document
root's `data-theme` attribute to `'dark'` exactly when `theme === 'dark'`
and to `'light'` otherwise, swaps every theme-toggle button's `innerHTML`
to the sun or moon SVG, and persists the raw `theme` under `LS_THEME`. -/
def applyTheme (theme : String) (st : PageState) : PageState :=
  { st with
    docTheme := some (if theme = "dark" then "dark" else "light")
    themeIcons := st.themeIcons.map (fun _ => if theme = "dark" then SUN_SVG else MOON_SVG)
    storage := Storage.setItem st.storage LS_THEME theme }

/-- Load-time language resolution (script.js line 148):
`localStorage.getItem(LS_LANG) || 'en'`; JS `||` falls back exactly on the
falsy values `null` and the empty string. -/
def resolveSavedLang (s : Storage) : String :=
  match Storage.getItem s LS_LANG with
  | none => "en"
  | some v => if v = "" then "en" else v

/-- Load-time theme resolution (script.js line 152):
`localStorage.getItem(LS_THEME) || 'dark'`. -/
def resolveSavedTheme (s : Storage) : String :=
  match Storage.getItem s LS_THEME with
  | none => "dark"
  | some v => if v = "" then "dark" else v

/-- The language/theme part of the `DOMContentLoaded` handler (script.js
lines 147-153): resolve the saved language and apply it, then resolve the
saved theme and apply it. -/
def loadInit (st : PageState) : PageState :=
  applyTheme (resolveSavedTheme st.storage)
    (applyLanguage (resolveSavedLang st.storage) st)

/-- The accordion header button: the script writes its `aria-expanded`
attribute. -/
structure AccBtn where
  ariaExpanded : Option String
  deriving Repr, DecidableEq

/-- The accordion content panel: its `style.maxHeight` override (cleared
when `none`, as after `panel.style.maxHeight = null`) and its natural
`scrollHeight` in pixels. -/
structure AccPanel where
  maxHeight : Option String
  scrollHeight : Nat
  deriving Repr, DecidableEq

/-- One accordion item: whether its class list carries `open`, and its
header button and panel; `none` models a missing `.accordion-header` or
`.accordion-panel`, in which case setup attaches no click handler. -/
structure AccordionItem where
  openClass : Bool
  btn : Option AccBtn
  panel : Option AccPanel
  deriving Repr, DecidableEq

/-- Default accordion item used for out-of-range `getD` indexing. -/
def dummyItem : AccordionItem := { openClass := false, btn := none, panel := none }

/-- Effect of the click handler attached by `setupAccordion` (script.js
lines 109-119) on its own item: toggle the `open` class, mirror the new
state into `aria-expanded`, and set `maxHeight` to `scrollHeight + 'px'`
when opening or clear it when closing.  Items missing the button or panel
got no handler, so a click leaves them unchanged. -/
def clickAccordionItem (item : AccordionItem) : AccordionItem :=
  match item.btn, item.panel with
  | some _, some p =>
      let isOpen := !item.openClass
      { openClass := isOpen
        btn := some { ariaExpanded := some (if isOpen then "true" else "false") }
        panel := some { p with
          maxHeight := if isOpen then some (toString p.scrollHeight ++ "px") else none } }
  | _, _ => item

/-- Apply `f` to the element at index `i`, leaving all others in place. -/
def updateAt {α : Type} (i : Nat) (f : α → α) : List α → List α
  | [] => []
  | a :: rest =>
    match i with
    | 0 => f a :: rest
    | n + 1 => a :: updateAt n f rest

/-- Firing the click handler of the item at index `i` of an accordion
group: `setupAccordion` attaches one handler per item, closing over that
item only, so a click transforms just that entry. -/
def clickAccordion (group : List AccordionItem) (i : Nat) : List AccordionItem :=
  updateAt i clickAccordionItem group

/-- Model of `DOMTokenList.add`: appends the token unless present. -/
def addClass (cs : List String) (c : String) : List String :=
  if c ∈ cs then cs else cs ++ [c]

/-- Model of `DOMTokenList.remove`: drops every occurrence of the token. -/
def removeClass (cs : List String) (c : String) : List String :=
  cs.filter (fun x => !(x == c))

/-- One IntersectionObserver entry: the index of its target among the
observed `.fade-in` elements, and its `isIntersecting` flag. -/
structure IOEntry where
  targetIdx : Nat
  isIntersecting : Bool
  deriving Repr, DecidableEq

/-- The observer callback of `setupObserver` (script.js lines 81-85): for
each entry, add the `visible` class to its target when intersecting; a
non-intersecting entry changes nothing.  Targets are their class lists. -/
def observerCallback (entries : List IOEntry) (targets : List (List String)) :
    List (List String) :=
  entries.foldl
    (fun ts e =>
      if e.isIntersecting then
        updateAt e.targetIdx (fun cs => addClass cs "visible") ts
      else ts)
    targets

/-- A whole sequence of observer notifications: each batch of entries is
delivered to the callback in order. -/
def observerRun (batches : List (List IOEntry)) (targets : List (List String)) :
    List (List String) :=
  batches.foldl (fun ts es => observerCallback es ts) targets

/-- Effect of the click handler `setupNavToggle` attaches to every link
inside `#nav-links` (script.js line 135): `nav.classList.remove('open')`,
acting on the container's class list. -/
def navLinkClick (navClasses : List String) : List String :=
  removeClass navClasses "open"

/-- Empty page used as a concrete input in witnesses. -/
def emptyPage : PageState :=
  { elems := [], langLabels := [], docTheme := none, themeIcons := [], storage := [] }

/-- Page with a single bilingual element, used as a concrete input. -/
def onePage : PageState :=
  { elems := [{ dataEn := "Hello", dataMl := "Namaskaram", textContent := "" }]
    langLabels := [], docTheme := none, themeIcons := [], storage := [] }

/-! Helper lemmas. -/

/-- Indexing `getD` commutes with `map` when the default is a fixed point. -/
theorem getD_map_fix {α : Type} (f : α → α) (d : α) (hf : f d = d) :
    ∀ (l : List α) (i : Nat), (l.map f).getD i d = f (l.getD i d) := by
  intro l
  induction l with
  | nil => intro i; simp [hf]
  | cons a t ih =>
      intro i
      cases i with
      | zero => simp
      | succ n => simpa using ih n

/-- An element lacking `data-en` is left unchanged by the per-element pass. -/
theorem applyLanguageElem_of_none {lang : String} {el : LangElem}
    (h : el.dataEn = none) : applyLanguageElem lang el = el := by
  unfold applyLanguageElem
  rw [h]

/-- Per-element statement of the translation contract. -/
theorem applyLanguageElem_spec (el : LangElem) (en : String)
    (h : el.dataEn = some en) :
    (∀ ml, el.dataMl = some ml → (applyLanguageElem "ml" el).textContent = ml)
    ∧ (el.dataMl = none → (applyLanguageElem "ml" el).textContent = en)
    ∧ (applyLanguageElem "en" el).textContent = en := by
  obtain ⟨den, dml, txt⟩ := el
  obtain rfl : den = some en := h
  cases dml <;> simp [applyLanguageElem]

/-- The language pass at position `i` is the per-element pass on position `i`. -/
theorem applyLanguage_elems_getD (lang : String) (st : PageState) (i : Nat) :
    (applyLanguage lang st).elems.getD i dummyElem
      = applyLanguageElem lang (st.elems.getD i dummyElem) :=
  getD_map_fix (applyLanguageElem lang) dummyElem rfl st.elems i

/-- Reading back the key just written returns the written value. -/
theorem getItem_setItem_self (s : Storage) (k v : String) :
    Storage.getItem (Storage.setItem s k v) k = some v := by
  simp [Storage.getItem, Storage.setItem, List.find?_cons_of_pos]

/-- Writing the same binding twice is the same as writing it once. -/
theorem setItem_setItem_self (s : Storage) (k v : String) :
    Storage.setItem (Storage.setItem s k v) k v = Storage.setItem s k v := by
  simp [Storage.setItem, List.filter_cons]

/-- `updateAt` leaves every other index unchanged. -/
theorem updateAt_getD_ne {α : Type} (f : α → α) (d : α) :
    ∀ (l : List α) (i j : Nat), j ≠ i →
      (updateAt i f l).getD j d = l.getD j d := by
  intro l
  induction l with
  | nil => intro i j _; simp [updateAt]
  | cons a t ih =>
      intro i j hj
      cases i with
      | zero =>
          cases j with
          | zero => exact absurd rfl hj
          | succ m => simp [updateAt]
      | succ n =>
          cases j with
          | zero => simp [updateAt]
          | succ m =>
              simpa [updateAt] using ih n m (fun h => hj (by rw [h]))

/-! Claim theorems. -/

/-- C1: for every element carrying `data-en`, `applyLanguage "ml"` sets its
visible text to its `data-ml` value when that attribute is present and to
its `data-en` value otherwise, and `applyLanguage "en"` always sets its
visible text to its `data-en` value. -/
theorem applyLanguage_translation (st : PageState) (i : Nat) (en : String)
    (h : (st.elems.getD i dummyElem).dataEn = some en) :
    (∀ ml, (st.elems.getD i dummyElem).dataMl = some ml →
        ((applyLanguage "ml" st).elems.getD i dummyElem).textContent = ml)
    ∧ ((st.elems.getD i dummyElem).dataMl = none →
        ((applyLanguage "ml" st).elems.getD i dummyElem).textContent = en)
    ∧ ((applyLanguage "en" st).elems.getD i dummyElem).textContent = en := by
  obtain ⟨h1, h2, h3⟩ := applyLanguageElem_spec (st.elems.getD i dummyElem) en h
  refine ⟨fun ml hm => ?_, fun hm => ?_, ?_⟩
  · rw [applyLanguage_elems_getD]; exact h1 ml hm
  · rw [applyLanguage_elems_getD]; exact h2 hm
  · rw [applyLanguage_elems_getD]; exact h3

/-- C1 witness: on a page with one bilingual element, switching to `ml`
shows the Malayalam text and switching to `en` shows the English text. -/
theorem applyLanguage_translation_witness :
    ((applyLanguage "ml" onePage).elems.getD 0 dummyElem).textContent = "Namaskaram"
    ∧ ((applyLanguage "en" onePage).elems.getD 0 dummyElem).textContent = "Hello" := by
  obtain ⟨h1, _, h3⟩ := applyLanguage_translation onePage 0 "Hello" (by decide)
  exact ⟨h1 "Namaskaram" (by decide), h3⟩

/-- C10: an element lacking the `data-en` attribute is never modified by
`applyLanguage`, for any language code, even when it carries `data-ml`. -/
theorem applyLanguage_skips_without_dataEn (lang : String) (st : PageState) (i : Nat)
    (h : (st.elems.getD i dummyElem).dataEn = none) :
    ((applyLanguage lang st).elems.getD i dummyElem).textContent
      = (st.elems.getD i dummyElem).textContent := by
  rw [applyLanguage_elems_getD, applyLanguageElem_of_none h]

/-- C10 witness: an element that has only `data-ml` keeps its text under
`applyLanguage "ml"`. -/
theorem applyLanguage_skips_without_dataEn_witness :
    ((applyLanguage "ml"
        { elems := [{ dataEn := none, dataMl := "Namaskaram", textContent := "keep" }]
          langLabels := [], docTheme := none, themeIcons := [], storage := [] }).elems.getD
        0 dummyElem).textContent = "keep" := by
  rw [applyLanguage_skips_without_dataEn "ml" _ 0 (by decide)]
  rfl

/-- C3: round-trip of the preference store; after `applyLanguage L` the
stored language preference reads back as `L`, and after `applyTheme M`
the stored theme preference reads back as `M`, for all strings and all
starting states. -/
theorem preference_roundtrip (L M : String) (st : PageState) :
    Storage.getItem (applyLanguage L st).storage LS_LANG = some L
    ∧ Storage.getItem (applyTheme M st).storage LS_THEME = some M :=
  ⟨getItem_setItem_self st.storage LS_LANG L,
   getItem_setItem_self st.storage LS_THEME M⟩

/-- C4: `applyTheme` is idempotent; applying the same mode twice yields a
state (document attribute, toggle affordances, stored preference, and all
untouched fields) identical to applying it once. -/
theorem applyTheme_idempotent (M : String) (st : PageState) :
    applyTheme M (applyTheme M st) = applyTheme M st := by
  unfold applyTheme
  simp [setItem_setItem_self]

/-- C2 counterexample: with stored language `"fr"`, a value that is neither
of the two supported codes, the load handler resolves `"fr"` itself rather
than the fallback `"en"`, and the initialization then persists `"fr"`:
`localStorage.getItem(k) || fallback` does not validate non-empty strings. -/
theorem load_resolution_unvalidated_cex :
    resolveSavedLang [("site-lang", "fr")] ≠ "en"
    ∧ resolveSavedLang [("site-lang", "fr")] ≠ "ml"
    ∧ resolveSavedTheme [("site-theme", "purple")] ≠ "dark"
    ∧ resolveSavedTheme [("site-theme", "purple")] ≠ "light"
    ∧ Storage.getItem
        (loadInit { elems := [], langLabels := [], docTheme := none,
                    themeIcons := [], storage := [("site-lang", "fr")] }).storage
        LS_LANG = some "fr" := by
  refine ⟨by decide, by decide, by decide, by decide, ?_⟩
  rfl

/-- C2 amended: at load, the resolved language (resp. theme) preference
equals the fixed fallback `"en"` (resp. `"dark"`) exactly when the stored
value is absent or the empty string; any other stored string, supported or
not, is resolved and applied as-is. -/
theorem load_resolution_fallback (s : Storage) :
    (Storage.getItem s LS_LANG = none ∨ Storage.getItem s LS_LANG = some "" →
        resolveSavedLang s = "en")
    ∧ (∀ v, Storage.getItem s LS_LANG = some v → v ≠ "" → resolveSavedLang s = v)
    ∧ (Storage.getItem s LS_THEME = none ∨ Storage.getItem s LS_THEME = some "" →
        resolveSavedTheme s = "dark")
    ∧ (∀ v, Storage.getItem s LS_THEME = some v → v ≠ "" → resolveSavedTheme s = v) := by
  refine ⟨fun h => ?_, fun v hv hne => ?_, fun h => ?_, fun v hv hne => ?_⟩
  · rcases h with h | h <;> simp [resolveSavedLang, h]
  · simp [resolveSavedLang, hv, hne]
  · rcases h with h | h <;> simp [resolveSavedTheme, h]
  · simp [resolveSavedTheme, hv, hne]

/-- C2 amended witness: empty storage resolves to the fallbacks, and the
stored strings `"fr"` and `"purple"` are resolved verbatim. -/
theorem load_resolution_fallback_witness :
    resolveSavedLang [] = "en" ∧ resolveSavedTheme [] = "dark"
    ∧ resolveSavedLang [("site-lang", "fr")] = "fr"
    ∧ resolveSavedTheme [("site-theme", "purple")] = "purple" :=
  ⟨(load_resolution_fallback []).1 (Or.inl rfl),
   (load_resolution_fallback []).2.2.1 (Or.inl rfl),
   (load_resolution_fallback [("site-lang", "fr")]).2.1 "fr" (by decide) (by decide),
   (load_resolution_fallback [("site-theme", "purple")]).2.2.2 "purple" (by decide) (by decide)⟩

/-- C5: accordion items are independent; firing the click handler of the
item at index `i` leaves every sibling at a different index — its `open`
marker, its `aria-expanded` attribute, and its panel height override —
exactly as it was. -/
theorem accordion_click_frame (group : List AccordionItem) (i j : Nat)
    (h : j ≠ i) :
    (clickAccordion group i).getD j dummyItem = group.getD j dummyItem :=
  updateAt_getD_ne clickAccordionItem dummyItem group i j h

/-- C5 witness: clicking the first item of a two-item group leaves the
second item untouched. -/
theorem accordion_click_frame_witness :
    (clickAccordion
        [{ openClass := false, btn := some { ariaExpanded := some "false" }
           panel := some { maxHeight := none, scrollHeight := 40 } },
         { openClass := true, btn := some { ariaExpanded := some "true" }
           panel := some { maxHeight := some "80px", scrollHeight := 80 } }] 0).getD
      1 dummyItem
    = { openClass := true, btn := some { ariaExpanded := some "true" }
        panel := some { maxHeight := some "80px", scrollHeight := 80 } } := by
  rw [accordion_click_frame _ 0 1 (by decide)]
  rfl

/-- C6: for an item with both a header button and a panel, a click that
opens it sets the panel's `maxHeight` override to exactly its natural
`scrollHeight` (as a pixel string) and `aria-expanded` to `"true"`; a
click that closes it clears the override and sets `aria-expanded` to
`"false"`. -/
theorem accordion_open_close (item : AccordionItem) (b : AccBtn) (p : AccPanel)
    (hb : item.btn = some b) (hp : item.panel = some p) :
    (item.openClass = false →
        (clickAccordionItem item).panel
          = some { maxHeight := some (toString p.scrollHeight ++ "px")
                   scrollHeight := p.scrollHeight }
        ∧ (clickAccordionItem item).btn = some { ariaExpanded := some "true" })
    ∧ (item.openClass = true →
        (clickAccordionItem item).panel
          = some { maxHeight := none, scrollHeight := p.scrollHeight }
        ∧ (clickAccordionItem item).btn = some { ariaExpanded := some "false" }) := by
  obtain ⟨op, btn, panel⟩ := item
  obtain rfl : btn = some b := hb
  obtain rfl : panel = some p := hp
  cases op <;> simp [clickAccordionItem]

/-- C6 witness: a closed item with a 40-pixel-high panel opens to
`maxHeight = "40px"` and `aria-expanded = "true"`; an open one closes to a
cleared override and `aria-expanded = "false"`. -/
theorem accordion_open_close_witness :
    ((clickAccordionItem
        { openClass := false, btn := some { ariaExpanded := some "false" }
          panel := some { maxHeight := none, scrollHeight := 40 } }).panel
      = some { maxHeight := some "40px", scrollHeight := 40 }
    ∧ (clickAccordionItem
        { openClass := false, btn := some { ariaExpanded := some "false" }
          panel := some { maxHeight := none, scrollHeight := 40 } }).btn
      = some { ariaExpanded := some "true" })
    ∧ ((clickAccordionItem
        { openClass := true, btn := some { ariaExpanded := some "true" }
          panel := some { maxHeight := some "40px", scrollHeight := 40 } }).panel
      = some { maxHeight := none, scrollHeight := 40 }
    ∧ (clickAccordionItem
        { openClass := true, btn := some { ariaExpanded := some "true" }
          panel := some { maxHeight := some "40px", scrollHeight := 40 } }).btn
      = some { ariaExpanded := some "false" }) := by
  constructor
  · exact (accordion_open_close
      { openClass := false, btn := some { ariaExpanded := some "false" }
        panel := some { maxHeight := none, scrollHeight := 40 } }
      { ariaExpanded := some "false" } { maxHeight := none, scrollHeight := 40 }
      rfl rfl).1 rfl
  · exact (accordion_open_close
      { openClass := true, btn := some { ariaExpanded := some "true" }
        panel := some { maxHeight := some "40px", scrollHeight := 40 } }
      { ariaExpanded := some "true" } { maxHeight := some "40px", scrollHeight := 40 }
      rfl rfl).2 rfl

/-- C8: a click on any link inside the nav container removes the `open`
marker, so the container never carries `open` immediately after the
handler runs, whatever its prior class list. -/
theorem navlink_click_closes (navClasses : List String) :
    "open" ∉ navLinkClick navClasses := by
  intro hmem
  have := List.of_mem_filter hmem
  simp at this

/-- C7 helper: `DOMTokenList.add` never removes a member. -/
theorem mem_addClass {c c2 : String} {cs : List String} (h : c ∈ cs) :
    c ∈ addClass cs c2 := by
  unfold addClass
  split
  · exact h
  · exact List.mem_append_left _ h

/-- C7 helper: a pointwise-preserved predicate on entries survives `updateAt`
at every index. -/
theorem updateAt_getD_pres {α : Type} (P : α → Prop) (f : α → α)
    (hf : ∀ x, P x → P (f x)) :
    ∀ (l : List α) (k i : Nat) (d : α),
      P (l.getD i d) → P ((updateAt k f l).getD i d) := by
  intro l
  induction l with
  | nil => intro _ i d h; simpa [updateAt] using h
  | cons a t ih =>
      intro k i d h
      cases k with
      | zero =>
          cases i with
          | zero => simpa [updateAt] using hf a (by simpa using h)
          | succ _ => simpa [updateAt] using h
      | succ n =>
          cases i with
          | zero => simpa [updateAt] using h
          | succ m => simpa [updateAt] using ih n m d (by simpa using h)

/-- C7 helper: one delivery of the observer callback never removes a
target's `visible` class. -/
theorem observerCallback_pres (entries : List IOEntry) :
    ∀ (ts : List (List String)) (i : Nat),
      "visible" ∈ ts.getD i ([] : List String) →
      "visible" ∈ (observerCallback entries ts).getD i [] := by
  induction entries with
  | nil => intro ts i h; simpa [observerCallback] using h
  | cons e es ih =>
      intro ts i h
      have hstep : "visible" ∈
          (if e.isIntersecting then
              updateAt e.targetIdx (fun cs => addClass cs "visible") ts
            else ts).getD i ([] : List String) := by
        split
        · exact updateAt_getD_pres (fun cs => "visible" ∈ cs) _
            (fun _ hx => mem_addClass hx) ts e.targetIdx i [] h
        · exact h
      simpa [observerCallback, List.foldl_cons] using ih _ i hstep

/-- C7: reveal is monotonic; once a target's class list carries `visible`,
no sequence of intersection notifications delivered to the observer
callback ever removes it, whether or not later entries intersect. -/
theorem reveal_monotonic (batches : List (List IOEntry))
    (targets : List (List String)) (i : Nat)
    (h : "visible" ∈ targets.getD i ([] : List String)) :
    "visible" ∈ (observerRun batches targets).getD i [] := by
  induction batches generalizing targets with
  | nil => simpa [observerRun] using h
  | cons es bs ih =>
      simpa [observerRun, List.foldl_cons] using
        ih (observerCallback es targets) (observerCallback_pres es targets i h)

/-- C7 witness: a target already marked visible stays visible through an
intersecting notification followed by a non-intersecting one. -/
theorem reveal_monotonic_witness :
    "visible" ∈ ([["visible"]].getD 0 ([] : List String))
    ∧ "visible" ∈ (observerRun
        [[{ targetIdx := 0, isIntersecting := true }],
         [{ targetIdx := 0, isIntersecting := false }]]
        [["visible"]]).getD 0 [] :=
  ⟨by decide, reveal_monotonic _ _ 0 (by decide)⟩

/-- C9: for any mode other than `"dark"`, `applyTheme` applies the
normalized attribute `"light"` to the document while persisting the raw
input string, so whenever the input is also not `"light"` the persisted
preference differs from the applied attribute. -/
theorem applyTheme_unvalidated_persist (M : String) (st : PageState)
    (h : M ≠ "dark") :
    (applyTheme M st).docTheme = some "light"
    ∧ Storage.getItem (applyTheme M st).storage LS_THEME = some M
    ∧ (M ≠ "light" →
        Storage.getItem (applyTheme M st).storage LS_THEME
          ≠ (applyTheme M st).docTheme) := by
  refine ⟨by simp [applyTheme, h], getItem_setItem_self st.storage LS_THEME M, ?_⟩
  intro hl
  simp [applyTheme, getItem_setItem_self, h, hl]

/-- C9 witness: storing the mode `"purple"` applies `"light"` to the
document but persists `"purple"`, and the two disagree. -/
theorem applyTheme_unvalidated_persist_witness :
    (applyTheme "purple" emptyPage).docTheme = some "light"
    ∧ Storage.getItem (applyTheme "purple" emptyPage).storage LS_THEME = some "purple"
    ∧ Storage.getItem (applyTheme "purple" emptyPage).storage LS_THEME
        ≠ (applyTheme "purple" emptyPage).docTheme := by
  obtain ⟨h1, h2, h3⟩ := applyTheme_unvalidated_persist "purple" emptyPage (by decide)
  exact ⟨h1, h2, h3 (by decide)⟩

end MukkamTravels
